import Mathlib

/-!
Shallow embedding of the buget-backend personal-finance API (TypeScript/Express/Prisma).

Monetary values are modeled as rationals (the database stores DECIMAL(15,2); the
controllers' `parseFloat`/`Number` arithmetic is idealized as exact rational
arithmetic).  Timestamps are modeled as integer milliseconds since the epoch, in a
fixed timezone, so JavaScript's `setHours(0,0,0,0)` day boundary becomes floor
division by `msPerDay`.

Request bodies are modeled field by field.  A JSON string field is `String` when
the handler only distinguishes JavaScript truthiness (`""` models both an absent
and an empty value where the handler treats them alike) and `Option String` when
absence and emptiness can behave differently.  A JSON number field is `ℚ`
(`0` is falsy, like in JavaScript); optional ones are `Option ℚ`.  Date strings
arriving in request bodies are modeled as already-parsed `Option Int` timestamps.
-/

namespace Buget

/-- Per-user denormalized ledger row (table `accounts`); all DECIMAL columns
default to 0 in the schema. -/
structure Account where
  totalBalance : ℚ
  totalIncome : ℚ
  totalExpense : ℚ
  totalSavings : ℚ
  totalInvested : ℚ
deriving Repr, DecidableEq

/-- A freshly created `accounts` row: every total starts at the schema default 0. -/
def Account.zero : Account := ⟨0, 0, 0, 0, 0⟩

/-- Row of the `incomes` table (fields used by the income controller). -/
structure Income where
  id : String
  userId : String
  title : String
  source : String
  amount : ℚ
  date : Int
  frequency : Option String
  description : Option String
deriving Repr, DecidableEq

/-- Row of the `expenses` table (fields used by the expense controller). -/
structure Expense where
  id : String
  userId : String
  title : String
  category : String
  amount : ℚ
  date : Int
  paymentMethod : Option String
  description : Option String
deriving Repr, DecidableEq

/-- Row of the `investments` table (fields used by the investment controller). -/
structure Investment where
  id : String
  userId : String
  title : String
  area : String
  amount : ℚ
  quantity : Option ℚ
  purchasePrice : Option ℚ
  currentValue : Option ℚ
  date : Int
  description : Option String
deriving Repr, DecidableEq

/-- The slice of database state touched by the income/expense/investment
controllers and read by the dashboard: the three record tables plus the
per-user account ledger rows (keyed by userId, which is unique on `accounts`). -/
structure DB where
  incomes : List Income
  expenses : List Expense
  investments : List Investment
  accounts : List (String × Account)
deriving Repr, DecidableEq

/-- Result of a state-mutating handler: the new database state and the HTTP status. -/
structure OpResult where
  db : DB
  status : Nat
deriving Repr, DecidableEq

/-- `prisma.account.findUnique({ where: { userId } })`. -/
def findAccount (l : List (String × Account)) (u : String) : Option Account :=
  (l.find? (fun p => decide (p.1 = u))).map (·.2)

/-- `prisma.account.update({ where: { userId }, data: f })`. -/
def updAccount (u : String) (f : Account → Account) (l : List (String × Account)) :
    List (String × Account) :=
  l.map (fun p => if p.1 = u then (p.1, f p.2) else p)

/-- `if (!account) account = await prisma.account.create({ data: { userId } })` —
the defensive backfill in createIncome/createInvestment. -/
def ensureAccount (u : String) (l : List (String × Account)) : List (String × Account) :=
  if (findAccount l u).isSome then l else l ++ [(u, Account.zero)]

/-- The ledger as the dashboard reads it: `Number(account?.field || 0)` —
a missing row reads as all zeros. -/
def ledger (u : String) (db : DB) : Account :=
  (findAccount db.accounts u).getD Account.zero

/-! ### Income controller (`incomeController.ts`) -/

/-- Body of `POST /api/incomes`.  `title`/`source` are `String` with `""` for
absent-or-empty (the handler only tests truthiness); `amount` is a JSON number
with `0` falsy. -/
structure IncomeReq where
  title : String
  source : String
  amount : ℚ
  date : Option Int
  frequency : Option String
  description : Option String
deriving Repr, DecidableEq

/-- `createIncome`: validates `!title || !source || !amount` (400), then
`parsedAmount <= 0` (400); inserts the row; backfills the account row if
missing; then increments `totalIncome` and `totalBalance` by the amount. -/
def createIncome (u newId : String) (now : Int) (req : IncomeReq) (db : DB) : OpResult :=
  if req.title = "" ∨ req.source = "" ∨ req.amount = 0 then ⟨db, 400⟩
  else if req.amount ≤ 0 then ⟨db, 400⟩
  else
    let row : Income :=
      { id := newId, userId := u, title := req.title, source := req.source,
        amount := req.amount, date := req.date.getD now,
        frequency := req.frequency, description := req.description }
    let accounts := updAccount u
      (fun a => { a with totalIncome := a.totalIncome + req.amount,
                         totalBalance := a.totalBalance + req.amount })
      (ensureAccount u db.accounts)
    ⟨{ db with incomes := db.incomes ++ [row], accounts := accounts }, 201⟩

/-- `prisma.income.findFirst({ where: { id, userId } })`. -/
def findIncome (l : List Income) (id u : String) : Option Income :=
  l.find? (fun i => decide (i.id = id ∧ i.userId = u))

/-- Body of `PUT /api/incomes/:id`: a partial patch; every key may be absent. -/
structure IncomePatch where
  title : Option String
  source : Option String
  amount : Option ℚ
  date : Option Int
  frequency : Option String
  description : Option String
deriving Repr, DecidableEq

/-- `...(x && { x })` — a string patch key is applied only when present and truthy. -/
def strPatch (p : Option String) (old : String) : String :=
  match p with
  | some s => if s = "" then old else s
  | none => old

/-- `...(x && { x })` for an optional stored string column. -/
def optStrPatch (p : Option String) (old : Option String) : Option String :=
  match p with
  | some s => if s = "" then old else some s
  | none => old

/-- `if (amount && parseFloat(amount) <= 0) return 400` — the update-time amount
validation fires only when the key is present and truthy. -/
def badAmount (p : Option ℚ) : Bool :=
  match p with
  | some a => decide (a ≠ 0 ∧ a ≤ 0)
  | none => false

/-- `...(amount && { amount: parseFloat(amount) })` — a numeric patch key is
applied only when present and nonzero (0 is falsy). -/
def numPatch (p : Option ℚ) (old : ℚ) : ℚ :=
  match p with
  | some a => if a = 0 then old else a
  | none => old

/-- `updateIncome`: 404 unless a row with this id is owned by the caller; 400
when the amount key is truthy and `parseFloat(amount) <= 0`; otherwise applies
exactly the truthy patch keys to the row. -/
def updateIncome (u id : String) (p : IncomePatch) (db : DB) : OpResult :=
  match findIncome db.incomes id u with
  | none => ⟨db, 404⟩
  | some _ =>
    if badAmount p.amount then ⟨db, 400⟩
    else
      let apply : Income → Income := fun i =>
        { i with
          title := strPatch p.title i.title,
          source := strPatch p.source i.source,
          amount := numPatch p.amount i.amount,
          date := p.date.getD i.date,
          frequency := optStrPatch p.frequency i.frequency,
          description := optStrPatch p.description i.description }
      ⟨{ db with incomes := db.incomes.map (fun i => if i.id = id then apply i else i) }, 200⟩

/-- `deleteIncome`: 404 unless owned; reverts the ledger (`if (account)`), then
deletes the row by id. -/
def deleteIncome (u id : String) (db : DB) : OpResult :=
  match findIncome db.incomes id u with
  | none => ⟨db, 404⟩
  | some inc =>
    let accounts :=
      if (findAccount db.accounts u).isSome then
        updAccount u
          (fun a => { a with totalIncome := a.totalIncome - inc.amount,
                             totalBalance := a.totalBalance - inc.amount })
          db.accounts
      else db.accounts
    ⟨{ db with incomes := db.incomes.filter (fun i => decide (i.id ≠ id)),
               accounts := accounts }, 200⟩

/-! ### Expense controller (`expenseController.ts`) -/

/-- Body of `POST /api/expenses`. -/
structure ExpenseReq where
  title : String
  category : String
  amount : ℚ
  date : Option Int
  paymentMethod : Option String
  description : Option String
deriving Repr, DecidableEq

/-- `createExpense`: like `createIncome` but there is no account backfill —
the ledger update runs only `if (account)`; increments `totalExpense`,
decrements `totalBalance`. -/
def createExpense (u newId : String) (now : Int) (req : ExpenseReq) (db : DB) : OpResult :=
  if req.title = "" ∨ req.category = "" ∨ req.amount = 0 then ⟨db, 400⟩
  else if req.amount ≤ 0 then ⟨db, 400⟩
  else
    let row : Expense :=
      { id := newId, userId := u, title := req.title, category := req.category,
        amount := req.amount, date := req.date.getD now,
        paymentMethod := req.paymentMethod, description := req.description }
    let accounts :=
      if (findAccount db.accounts u).isSome then
        updAccount u
          (fun a => { a with totalExpense := a.totalExpense + req.amount,
                             totalBalance := a.totalBalance - req.amount })
          db.accounts
      else db.accounts
    ⟨{ db with expenses := db.expenses ++ [row], accounts := accounts }, 201⟩

/-- `prisma.expense.findFirst({ where: { id, userId } })`. -/
def findExpense (l : List Expense) (id u : String) : Option Expense :=
  l.find? (fun e => decide (e.id = id ∧ e.userId = u))

/-- Body of `PUT /api/expenses/:id`. -/
structure ExpensePatch where
  title : Option String
  category : Option String
  amount : Option ℚ
  date : Option Int
  paymentMethod : Option String
  description : Option String
deriving Repr, DecidableEq

/-- `updateExpense`: same shape as `updateIncome`. -/
def updateExpense (u id : String) (p : ExpensePatch) (db : DB) : OpResult :=
  match findExpense db.expenses id u with
  | none => ⟨db, 404⟩
  | some _ =>
    if badAmount p.amount then ⟨db, 400⟩
    else
      let apply : Expense → Expense := fun e =>
        { e with
          title := strPatch p.title e.title,
          category := strPatch p.category e.category,
          amount := numPatch p.amount e.amount,
          date := p.date.getD e.date,
          paymentMethod := optStrPatch p.paymentMethod e.paymentMethod,
          description := optStrPatch p.description e.description }
      ⟨{ db with expenses := db.expenses.map (fun e => if e.id = id then apply e else e) }, 200⟩

/-- `deleteExpense`: 404 unless owned; reverts the ledger (`if (account)`), then
deletes the row by id. -/
def deleteExpense (u id : String) (db : DB) : OpResult :=
  match findExpense db.expenses id u with
  | none => ⟨db, 404⟩
  | some exp =>
    let accounts :=
      if (findAccount db.accounts u).isSome then
        updAccount u
          (fun a => { a with totalExpense := a.totalExpense - exp.amount,
                             totalBalance := a.totalBalance + exp.amount })
          db.accounts
      else db.accounts
    ⟨{ db with expenses := db.expenses.filter (fun e => decide (e.id ≠ id)),
               accounts := accounts }, 200⟩

/-! ### Investment controller (`investmentController.ts`) -/

/-- Body of `POST /api/investments`. -/
structure InvestmentReq where
  title : String
  area : String
  amount : ℚ
  quantity : Option ℚ
  purchasePrice : Option ℚ
  currentValue : Option ℚ
  date : Option Int
deriving Repr, DecidableEq

/-- `x ? parseFloat(x) : undefined` for optional numeric create fields (0 is falsy). -/
def truthyNum (p : Option ℚ) : Option ℚ :=
  match p with
  | some a => if a = 0 then none else some a
  | none => none

/-- `createInvestment`: validation as for income; `currentValue` defaults to the
amount when falsy; backfills the account row if missing; increments
`totalInvested`, decrements `totalBalance`. -/
def createInvestment (u newId : String) (now : Int) (req : InvestmentReq) (db : DB) : OpResult :=
  if req.title = "" ∨ req.area = "" ∨ req.amount = 0 then ⟨db, 400⟩
  else if req.amount ≤ 0 then ⟨db, 400⟩
  else
    let row : Investment :=
      { id := newId, userId := u, title := req.title, area := req.area,
        amount := req.amount,
        quantity := truthyNum req.quantity,
        purchasePrice := truthyNum req.purchasePrice,
        currentValue := some ((truthyNum req.currentValue).getD req.amount),
        date := req.date.getD now, description := none }
    let accounts := updAccount u
      (fun a => { a with totalInvested := a.totalInvested + req.amount,
                         totalBalance := a.totalBalance - req.amount })
      (ensureAccount u db.accounts)
    ⟨{ db with investments := db.investments ++ [row], accounts := accounts }, 201⟩

/-- `prisma.investment.findFirst({ where: { id, userId } })`. -/
def findInvestment (l : List Investment) (id u : String) : Option Investment :=
  l.find? (fun v => decide (v.id = id ∧ v.userId = u))

/-- Body of `PUT /api/investments/:id` — note the handler destructures neither
`amount` nor `date`, so those columns are not patchable at all. -/
structure InvestmentPatch where
  title : Option String
  area : Option String
  quantity : Option ℚ
  purchasePrice : Option ℚ
  currentValue : Option ℚ
  description : Option String
deriving Repr, DecidableEq

/-- Optional-column numeric patch (`...(x && { x: parseFloat(x) })`). -/
def optNumPatch (p : Option ℚ) (old : Option ℚ) : Option ℚ :=
  match p with
  | some a => if a = 0 then old else some a
  | none => old

/-- `updateInvestment`: 404 unless owned; no amount validation (amount is not
in the patch); applies the truthy patch keys. -/
def updateInvestment (u id : String) (p : InvestmentPatch) (db : DB) : OpResult :=
  match findInvestment db.investments id u with
  | none => ⟨db, 404⟩
  | some _ =>
    let apply : Investment → Investment := fun v =>
      { v with
        title := strPatch p.title v.title,
        area := strPatch p.area v.area,
        quantity := optNumPatch p.quantity v.quantity,
        purchasePrice := optNumPatch p.purchasePrice v.purchasePrice,
        currentValue := optNumPatch p.currentValue v.currentValue,
        description := optStrPatch p.description v.description }
    ⟨{ db with investments := db.investments.map (fun v => if v.id = id then apply v else v) }, 200⟩

/-- `deleteInvestment`: 404 unless owned; reverts the ledger, then deletes. -/
def deleteInvestment (u id : String) (db : DB) : OpResult :=
  match findInvestment db.investments id u with
  | none => ⟨db, 404⟩
  | some inv =>
    let accounts :=
      if (findAccount db.accounts u).isSome then
        updAccount u
          (fun a => { a with totalInvested := a.totalInvested - inv.amount,
                             totalBalance := a.totalBalance + inv.amount })
          db.accounts
      else db.accounts
    ⟨{ db with investments := db.investments.filter (fun v => decide (v.id ≠ id)),
               accounts := accounts }, 200⟩

/-! ### Dashboard controller (`dashboardController.ts`, `getDashboard`) -/

/-- One day in milliseconds; `setHours(0,0,0,0)`/`setHours(23,59,59,999)` bucket
timestamps into `[d*msPerDay, d*msPerDay + msPerDay - 1]`. -/
def msPerDay : Int := 86400000

/-- The calendar day containing timestamp `t` (floor division, since day
boundaries lie below every timestamp of the day). -/
def dayIndex (t : Int) : Int := t.fdiv msPerDay

/-- `['Sun','Mon','Tue','Wed','Thu','Fri','Sat'][date.getDay()]` for the date of
calendar day `d`: the epoch day (day 0) was a Thursday. -/
def weekdayName (d : Int) : String :=
  ["Sun", "Mon", "Tue", "Wed", "Thu", "Fri", "Sat"].getD ((d + 4).emod 7).toNat ""

/-- One entry of the dashboard's `weeklyStats` array. -/
structure DayStat where
  day : String
  amount : ℚ
deriving Repr, DecidableEq

/-- The `weeklyStats` computation of `getDashboard`, applied to the caller's
(already user-scoped) income and expense rows: prefilter to
`date >= sevenDaysAgo`, then for each of the 7 trailing calendar days sum the
day's income minus the day's expense, floored at 0, labeled by weekday. -/
def weeklyStats (now : Int) (incomes : List Income) (expenses : List Expense) : List DayStat :=
  let sevenDaysAgo := now - 7 * msPerDay
  let weeklyIncomes := incomes.filter (fun i => decide (sevenDaysAgo ≤ i.date))
  let weeklyExpenses := expenses.filter (fun e => decide (sevenDaysAgo ≤ e.date))
  (List.range 7).map (fun (i : ℕ) =>
    let d := dayIndex now - (6 - (i : Int))
    let dayStart := d * msPerDay
    let dayEnd := d * msPerDay + (msPerDay - 1)
    let dayIncome :=
      ((weeklyIncomes.filter (fun t => decide (dayStart ≤ t.date ∧ t.date ≤ dayEnd))).map
        (·.amount)).sum
    let dayExpense :=
      ((weeklyExpenses.filter (fun t => decide (dayStart ≤ t.date ∧ t.date ≤ dayEnd))).map
        (·.amount)).sum
    { day := weekdayName d, amount := max 0 (dayIncome - dayExpense) })

/-- `Math.round(x * 100) / 100` (`Math.round` is floor of `x + 1/2`, which is
Mathlib's `round` on ℚ). -/
def round2 (q : ℚ) : ℚ := ((round (q * 100) : ℤ) : ℚ) / 100

/-- `prisma.income.findMany({ where: { userId } })`. -/
def userIncomes (u : String) (db : DB) : List Income :=
  db.incomes.filter (fun i => decide (i.userId = u))

/-- `prisma.expense.findMany({ where: { userId } })`. -/
def userExpenses (u : String) (db : DB) : List Expense :=
  db.expenses.filter (fun e => decide (e.userId = u))

/-- `prisma.investment.findMany({ where: { userId } })`. -/
def userInvestments (u : String) (db : DB) : List Investment :=
  db.investments.filter (fun v => decide (v.userId = u))

/-- The dashboard response fields the claims are about (the response also
carries card/budget/transaction lists, projected here). -/
structure Dashboard where
  totalBalance : ℚ
  totalIncome : ℚ
  totalExpense : ℚ
  totalSavings : ℚ
  totalInvested : ℚ
  totalIncomeSum : ℚ
  totalExpenseSum : ℚ
  totalInvestmentSum : ℚ
  balanceLeft : ℚ
  recommendedSavings : ℚ
  weeklyStats : List DayStat
deriving Repr, DecidableEq

/-- `getDashboard`: ledger totals come from the account row (zero when absent);
the scalar sums range over the user's full, unpaginated record sets;
`balanceLeft = income - expense - investment`;
`recommendedSavings = Math.round(Math.max(0, 0.1 * balanceLeft) * 100) / 100`. -/
def getDashboard (u : String) (now : Int) (db : DB) : Dashboard :=
  let acct := ledger u db
  let incs := userIncomes u db
  let exps := userExpenses u db
  let invs := userInvestments u db
  let totalIncomeSum := (incs.map (·.amount)).sum
  let totalExpenseSum := (exps.map (·.amount)).sum
  let totalInvestmentSum := (invs.map (·.amount)).sum
  let balanceLeft := totalIncomeSum - totalExpenseSum - totalInvestmentSum
  { totalBalance := acct.totalBalance,
    totalIncome := acct.totalIncome,
    totalExpense := acct.totalExpense,
    totalSavings := acct.totalSavings,
    totalInvested := acct.totalInvested,
    totalIncomeSum := totalIncomeSum,
    totalExpenseSum := totalExpenseSum,
    totalInvestmentSum := totalInvestmentSum,
    balanceLeft := balanceLeft,
    recommendedSavings := round2 (max 0 (1 / 10 * balanceLeft)),
    weeklyStats := weeklyStats now incs exps }

/-! ### Budgets: `updateBudget` of the dashboard controller

`index.ts` mounts `dashboardRoutes` at `/api` before `budgetRoutes` at
`/api/budgets`, so `PUT /api/budgets/:id` is served by the dashboard
controller's `updateBudget`. -/

/-- Row of the `budgets` table (fields used by the dashboard budget handlers). -/
structure Budget where
  id : String
  userId : String
  name : String
  category : Option String
  spent : ℚ
  limit : ℚ
  color : String
  icon : Option String
  alertThreshold : Int
  followed : Option Bool
deriving Repr, DecidableEq

/-- The dashboard controller's `updateBudget`: reads `req.params.id` and the
`spent`/`limit` body keys (applied when `!== undefined`, so even falsy values
patch), and calls `prisma.budget.update({ where: { id } })` — the authenticated
caller's id, available as `req.userId`, is never consulted.  A missing id makes
prisma throw, caught as a 500. -/
def dashUpdateBudget (reqUserId id : String) (spent limit : Option ℚ)
    (budgets : List Budget) : List Budget × Nat :=
  if budgets.any (fun b => decide (b.id = id)) then
    (budgets.map (fun b =>
      if b.id = id then { b with spent := spent.getD b.spent, limit := limit.getD b.limit }
      else b), 200)
  else (budgets, 500)

/-! ### Card controller (`cardController.ts`) -/

/-- Row of the `cards` table. -/
structure Card where
  id : String
  userId : String
  type : String
  issuer : String
  last4 : String
  name : String
  expiryMonth : Option Int
  expiryYear : Option Int
  limit : Option ℚ
  isDefault : Bool
deriving Repr, DecidableEq

/-- Body of `POST /api/cards`: canonical backend names plus the alternate
frontend names (`cardType`, `expiryDate`). -/
structure CardReq where
  type : Option String
  issuer : Option String
  last4 : Option String
  cardholderName : Option String
  expiryMonth : Option Int
  expiryYear : Option Int
  limit : Option ℚ
  isDefault : Option Bool
  cardType : Option String
  expiryDate : Option String
deriving Repr, DecidableEq

/-- JavaScript `a || d` on an optional string: the fallback when absent or empty. -/
def jsOr (a : Option String) (d : String) : String :=
  match a with
  | some s => if s = "" then d else s
  | none => d

/-- The `expiryDate` parser of `createCard`: split on `/`, trim, `parseInt` both
parts (pure digit strings modeled by `String.toNat?`), add 2000 to a two-digit
year; each successfully parsed part overrides the corresponding field. -/
def parseExpiry (s : String) (month year : Option Int) : Option Int × Option Int :=
  let parts := (s.splitOn "/").map (·.trim)
  if parts.length = 2 then
    let m := (parts.getD 0 "").toNat?
    let y0 := (parts.getD 1 "").toNat?
    let y := y0.map (fun n => if n < 100 then n + 2000 else n)
    ((match m with | some n => some (n : Int) | none => month),
     (match y with | some n => some (n : Int) | none => year))
  else (month, year)

/-- `x || null` on an optional integer column value (0 is falsy). -/
def truthyInt (p : Option Int) : Option Int :=
  match p with
  | some n => if n = 0 then none else some n
  | none => none

/-- `prisma.card.updateMany({ where: { userId, isDefault: true },
data: { isDefault: false } })`. -/
def unsetDefaults (u : String) (cards : List Card) : List Card :=
  cards.map (fun c =>
    if c.userId = u ∧ c.isDefault then { c with isDefault := false } else c)

/-- `createCard`: normalizes the dual input shape (`type || cardType || ''`,
`expiryDate` parsing, `last4.toString().slice(-4)`), validates required fields
and a positive limit, unsets the user's other default cards when
`isDefault` is truthy, then inserts with `isDefault ?? false`. -/
def createCard (u newId : String) (req : CardReq) (cards : List Card) : List Card × Nat :=
  let finalType := jsOr req.type (jsOr req.cardType "")
  let expiry :=
    match req.expiryDate with
    | some s => parseExpiry s req.expiryMonth req.expiryYear
    | none => (req.expiryMonth, req.expiryYear)
  if finalType = "" ∨ jsOr req.last4 "" = "" ∨ jsOr req.cardholderName "" = "" then
    (cards, 400)
  else if badAmount req.limit then (cards, 400)
  else
    let cards1 := if req.isDefault = some true then unsetDefaults u cards else cards
    let row : Card :=
      { id := newId, userId := u, type := finalType,
        issuer := jsOr req.issuer "Unknown",
        last4 := (jsOr req.last4 "").takeRight 4,
        name := jsOr req.cardholderName "",
        expiryMonth := truthyInt expiry.1,
        expiryYear := truthyInt expiry.2,
        limit := truthyNum req.limit,
        isDefault := req.isDefault.getD false }
    (cards1 ++ [row], 201)

/-- Body of `PUT /api/cards/:id`. -/
structure CardPatch where
  cardholderName : Option String
  limit : Option ℚ
  isDefault : Option Bool
deriving Repr, DecidableEq

/-- `prisma.card.findFirst({ where: { id, userId } })`. -/
def findCard (l : List Card) (id u : String) : Option Card :=
  l.find? (fun c => decide (c.id = id ∧ c.userId = u))

/-- `updateCard`: 404 unless owned; `if (isDefault && !card.isDefault)` unsets
the user's other defaults; then patches `name`/`limit` truthily and `isDefault`
whenever present (`!== undefined`). -/
def updateCard (u id : String) (p : CardPatch) (cards : List Card) : List Card × Nat :=
  match findCard cards id u with
  | none => (cards, 404)
  | some card =>
    let cards1 :=
      if p.isDefault = some true ∧ ¬card.isDefault then unsetDefaults u cards else cards
    (cards1.map (fun c =>
      if c.id = id then
        { c with name := strPatch p.cardholderName c.name,
                 limit := optNumPatch p.limit c.limit,
                 isDefault := p.isDefault.getD c.isDefault }
      else c), 200)

/-! ### Savings goal controller (`savingsGoalController.ts`) -/

/-- Row of the `savings_goals` table (fields used by contribute/withdraw). -/
structure SavingsGoal where
  id : String
  userId : String
  title : String
  targetAmount : ℚ
  currentAmount : ℚ
  status : String
  priority : String
deriving Repr, DecidableEq

/-- `prisma.savingsGoal.findFirst({ where: { id, userId } })`. -/
def findGoal (l : List SavingsGoal) (id u : String) : Option SavingsGoal :=
  l.find? (fun g => decide (g.id = id ∧ g.userId = u))

/-- `contributeSavingsGoal`: 400 when `amount == null || Number(amount) <= 0`;
404 unless owned; otherwise `currentAmount += amount` and
`status = newAmount >= targetAmount ? 'completed' : 'active'`. -/
def contributeGoal (u id : String) (amount : Option ℚ) (goals : List SavingsGoal) :
    List SavingsGoal × Nat :=
  match amount with
  | none => (goals, 400)
  | some a =>
    if a ≤ 0 then (goals, 400)
    else
      match findGoal goals id u with
      | none => (goals, 404)
      | some g =>
        let newAmount := g.currentAmount + a
        let isComplete := decide (g.targetAmount ≤ newAmount)
        (goals.map (fun x =>
          if x.id = id then
            { x with currentAmount := newAmount,
                     status := if isComplete then "completed" else "active" }
          else x), 200)

/-- `withdrawSavingsGoal`: 400/404 as for contribute; otherwise
`currentAmount = Math.max(0, currentAmount - amount)`; `status` untouched. -/
def withdrawGoal (u id : String) (amount : Option ℚ) (goals : List SavingsGoal) :
    List SavingsGoal × Nat :=
  match amount with
  | none => (goals, 400)
  | some a =>
    if a ≤ 0 then (goals, 400)
    else
      match findGoal goals id u with
      | none => (goals, 404)
      | some g =>
        let newAmount := max 0 (g.currentAmount - a)
        (goals.map (fun x =>
          if x.id = id then { x with currentAmount := newAmount } else x), 200)

/-! ### List pagination (`getExpenses` and the other list handlers) -/

/-- A paginated list response:
`{ items, pagination: { page, limit, total, pages } }`. -/
structure PageResult (α : Type) where
  items : List α
  page : Nat
  limit : Nat
  total : Nat
  pages : Nat
deriving Repr, DecidableEq

/-- `parseInt(req.query.page as string) || 1` — absent, unparsable or zero query
values fall back to the default (query values are modeled as optional naturals). -/
def queryOr (q : Option Nat) (d : Nat) : Nat :=
  match q with
  | some n => if n = 0 then d else n
  | none => d

/-- The shared list shape: `skip = (page-1)*limit`, `take limit`,
`total = count`, `pages = Math.ceil(total/limit)`. -/
def paginate {α : Type} (rows : List α) (pageQ limitQ : Option Nat) : PageResult α :=
  let page := queryOr pageQ 1
  let limit := queryOr limitQ 10
  let skip := (page - 1) * limit
  { items := (rows.drop skip).take limit,
    page := page,
    limit := limit,
    total := rows.length,
    pages := (Int.ceil ((rows.length : ℚ) / limit)).toNat }

/-! ### Specification-side helper quantities -/

/-- The total income amount a user's rows book on calendar day `d` (over the
full row set, with no 7-day prefilter) — the reference value the weekly series
is compared against. -/
def dayIncomeSum (l : List Income) (d : Int) : ℚ :=
  ((l.filter (fun i => decide (dayIndex i.date = d))).map (·.amount)).sum

/-- The total expense amount booked on calendar day `d`. -/
def dayExpenseSum (l : List Expense) (d : Int) : ℚ :=
  ((l.filter (fun e => decide (dayIndex e.date = d))).map (·.amount)).sum

/-- How many of the user's cards are flagged as default. -/
def countDefaults (u : String) (cards : List Card) : Nat :=
  cards.countP (fun c => decide (c.userId = u) && c.isDefault)

/-! ## Theorems -/

/-- C3: for a fresh user (empty stores, zero ledger), after creating
Income{amount:500}, Expense{amount:120} and Investment{amount:200}, the
dashboard reports totalBalance=180, totalIncomeSum=500, totalExpenseSum=120,
totalInvestmentSum=200, balanceLeft=180 and recommendedSavings=18.00. -/
theorem dashboard_concrete_scenario :
    let db0 : DB := ⟨[], [], [], [("u1", Account.zero)]⟩
    let r1 := createIncome "u1" "i1" 0 ⟨"Salary", "Job", 500, none, none, none⟩ db0
    let r2 := createExpense "u1" "e1" 0 ⟨"Groceries", "Food", 120, none, none, none⟩ r1.db
    let r3 := createInvestment "u1" "v1" 0
      ⟨"Stocks", "Equity", 200, none, none, none, none⟩ r2.db
    let d := getDashboard "u1" 0 r3.db
    r1.status = 201 ∧ r2.status = 201 ∧ r3.status = 201 ∧
    d.totalBalance = 180 ∧ d.totalIncomeSum = 500 ∧ d.totalExpenseSum = 120 ∧
    d.totalInvestmentSum = 200 ∧ d.balanceLeft = 180 ∧ d.recommendedSavings = 18 := by
  simp only [createIncome, createExpense, createInvestment, getDashboard, ledger,
    findAccount, updAccount, ensureAccount, userIncomes, userExpenses,
    userInvestments, weeklyStats, round2, Account.zero]
  simp
  norm_num

/-- C5: on a savings goal with targetAmount=100, currentAmount=80 and status
"active", contribute(30) yields currentAmount=110 and status "completed", and a
subsequent withdraw(200) yields currentAmount=0 (floored at 0) while the status
stays "completed". -/
theorem savings_goal_contribute_withdraw_scenario :
    let g0 : SavingsGoal := ⟨"g1", "u1", "Vacation", 100, 80, "active", "medium"⟩
    let r1 := contributeGoal "u1" "g1" (some 30) [g0]
    let r2 := withdrawGoal "u1" "g1" (some 200) r1.1
    r1.2 = 200 ∧ r1.1 = [⟨"g1", "u1", "Vacation", 100, 110, "completed", "medium"⟩] ∧
    r2.2 = 200 ∧ r2.1 = [⟨"g1", "u1", "Vacation", 100, 0, "completed", "medium"⟩] := by
  simp only [contributeGoal, withdrawGoal, findGoal]
  simp
  norm_num

/-- C1 (code bug evidence): the handler serving `PUT /api/budgets/:id` (the
dashboard controller's `updateBudget`) never consults the authenticated caller:
caller "userA" updating a budget owned by "userB" gets 200 and the foreign
budget's `spent` is overwritten — not the 404-and-unchanged the spec's
ownership-isolation invariant requires. -/
theorem budget_update_ignores_ownership :
    let b0 : Budget := ⟨"b1", "userB", "Food", none, 0, 100, "#10B981", none, 80, none⟩
    let r := dashUpdateBudget "userA" "b1" (some 999) none [b0]
    r.2 = 200 ∧
    r.1 = [⟨"b1", "userB", "Food", none, 999, 100, "#10B981", none, 80, none⟩] ∧
    "userA" ≠ "userB" := by
  decide

/-- Updating the ledger row of user `u` changes exactly that user's account,
as seen through `findAccount`. -/
theorem findAccount_upd (u : String) (f : Account → Account) (l : List (String × Account)) :
    findAccount (updAccount u f l) u = (findAccount l u).map f := by
  induction l with
  | nil => rfl
  | cons p t ih =>
    by_cases h : p.1 = u
    · simp [findAccount, updAccount, List.find?_cons, h]
    · simpa [findAccount, updAccount, List.find?_cons, h] using ih

/-- After the defensive backfill the user's account row exists and holds the
previous ledger view (the zero row when there was none). -/
theorem findAccount_ensure (u : String) (l : List (String × Account)) :
    findAccount (ensureAccount u l) u = some ((findAccount l u).getD Account.zero) := by
  unfold ensureAccount
  cases h : findAccount l u with
  | some a => simp [h]
  | none =>
    have hf : l.find? (fun p => decide (p.1 = u)) = none := by
      simpa [findAccount] using h
    simp [h, findAccount, List.find?_append, hf]

/-- C2: creating an income (resp. expense, investment) with amount `a` moves the
ledger's matching total and `totalBalance` by exactly `+a`/`+a` (resp. `+a`/`-a`,
`+a`/`-a`), and deleting that same record right away restores both ledger fields
to their exact pre-create values.  The expense part assumes the user's account
row exists (expense creation performs no backfill); income and investment
create the row when missing, so they need no such assumption. -/
theorem ledger_roundtrip_on_create_delete :
    (∀ (db : DB) (u newId : String) (now : Int) (req : IncomeReq),
      req.title ≠ "" → req.source ≠ "" → 0 < req.amount →
      (∀ i ∈ db.incomes, i.id ≠ newId) →
      (createIncome u newId now req db).status = 201 ∧
      (ledger u (createIncome u newId now req db).db).totalIncome
        = (ledger u db).totalIncome + req.amount ∧
      (ledger u (createIncome u newId now req db).db).totalBalance
        = (ledger u db).totalBalance + req.amount ∧
      (deleteIncome u newId (createIncome u newId now req db).db).status = 200 ∧
      (ledger u (deleteIncome u newId (createIncome u newId now req db).db).db).totalIncome
        = (ledger u db).totalIncome ∧
      (ledger u (deleteIncome u newId (createIncome u newId now req db).db).db).totalBalance
        = (ledger u db).totalBalance) ∧
    (∀ (db : DB) (u newId : String) (now : Int) (req : ExpenseReq),
      req.title ≠ "" → req.category ≠ "" → 0 < req.amount →
      (∀ e ∈ db.expenses, e.id ≠ newId) →
      (findAccount db.accounts u).isSome →
      (createExpense u newId now req db).status = 201 ∧
      (ledger u (createExpense u newId now req db).db).totalExpense
        = (ledger u db).totalExpense + req.amount ∧
      (ledger u (createExpense u newId now req db).db).totalBalance
        = (ledger u db).totalBalance - req.amount ∧
      (deleteExpense u newId (createExpense u newId now req db).db).status = 200 ∧
      (ledger u (deleteExpense u newId (createExpense u newId now req db).db).db).totalExpense
        = (ledger u db).totalExpense ∧
      (ledger u (deleteExpense u newId (createExpense u newId now req db).db).db).totalBalance
        = (ledger u db).totalBalance) ∧
    (∀ (db : DB) (u newId : String) (now : Int) (req : InvestmentReq),
      req.title ≠ "" → req.area ≠ "" → 0 < req.amount →
      (∀ v ∈ db.investments, v.id ≠ newId) →
      (createInvestment u newId now req db).status = 201 ∧
      (ledger u (createInvestment u newId now req db).db).totalInvested
        = (ledger u db).totalInvested + req.amount ∧
      (ledger u (createInvestment u newId now req db).db).totalBalance
        = (ledger u db).totalBalance - req.amount ∧
      (deleteInvestment u newId (createInvestment u newId now req db).db).status = 200 ∧
      (ledger u
        (deleteInvestment u newId (createInvestment u newId now req db).db).db).totalInvested
        = (ledger u db).totalInvested ∧
      (ledger u
        (deleteInvestment u newId (createInvestment u newId now req db).db).db).totalBalance
        = (ledger u db).totalBalance) := by
  refine ⟨?_, ?_, ?_⟩
  · intro db u newId now req ht hs ha hfresh
    have hcond : ¬(req.title = "" ∨ req.source = "" ∨ req.amount = 0) := by
      push_neg
      exact ⟨ht, hs, ne_of_gt ha⟩
    have hle : ¬req.amount ≤ 0 := not_le.mpr ha
    have hcreate : createIncome u newId now req db =
        ⟨{ db with
            incomes := db.incomes ++
              [{ id := newId, userId := u, title := req.title, source := req.source,
                 amount := req.amount, date := req.date.getD now,
                 frequency := req.frequency, description := req.description }],
            accounts := updAccount u
              (fun a => { a with totalIncome := a.totalIncome + req.amount,
                                 totalBalance := a.totalBalance + req.amount })
              (ensureAccount u db.accounts) }, 201⟩ := by
      unfold createIncome
      rw [if_neg hcond, if_neg hle]
    rw [hcreate]
    have hacc1 : findAccount
        (updAccount u
          (fun a => { a with totalIncome := a.totalIncome + req.amount,
                             totalBalance := a.totalBalance + req.amount })
          (ensureAccount u db.accounts)) u =
        some { (ledger u db) with
               totalIncome := (ledger u db).totalIncome + req.amount,
               totalBalance := (ledger u db).totalBalance + req.amount } := by
      rw [findAccount_upd, findAccount_ensure]
      rfl
    have hfind : findIncome
        (db.incomes ++
          [{ id := newId, userId := u, title := req.title, source := req.source,
             amount := req.amount, date := req.date.getD now,
             frequency := req.frequency, description := req.description }]) newId u =
        some { id := newId, userId := u, title := req.title, source := req.source,
               amount := req.amount, date := req.date.getD now,
               frequency := req.frequency, description := req.description } := by
      unfold findIncome
      rw [List.find?_append]
      have h1 : db.incomes.find? (fun i => decide (i.id = newId ∧ i.userId = u)) = none := by
        rw [List.find?_eq_none]
        intro x hx
        simp only [decide_eq_true_eq, not_and]
        intro hxid
        exact absurd hxid (hfresh x hx)
      rw [h1]
      simp
    refine ⟨rfl, ?_, ?_, ?_, ?_, ?_⟩
    · simp [ledger, hacc1]
    · simp [ledger, hacc1]
    · unfold deleteIncome
      rw [hfind]
    · unfold deleteIncome
      rw [hfind]
      simp only [hacc1, Option.isSome_some, if_true]
      simp [ledger, findAccount_upd, hacc1]
    · unfold deleteIncome
      rw [hfind]
      simp only [hacc1, Option.isSome_some, if_true]
      simp [ledger, findAccount_upd, hacc1]
  · intro db u newId now req ht hs ha hfresh hacc
    have hcond : ¬(req.title = "" ∨ req.category = "" ∨ req.amount = 0) := by
      push_neg
      exact ⟨ht, hs, ne_of_gt ha⟩
    have hle : ¬req.amount ≤ 0 := not_le.mpr ha
    obtain ⟨acc, hacc0⟩ := Option.isSome_iff_exists.mp hacc
    have hcreate : createExpense u newId now req db =
        ⟨{ db with
            expenses := db.expenses ++
              [{ id := newId, userId := u, title := req.title, category := req.category,
                 amount := req.amount, date := req.date.getD now,
                 paymentMethod := req.paymentMethod, description := req.description }],
            accounts := updAccount u
              (fun a => { a with totalExpense := a.totalExpense + req.amount,
                                 totalBalance := a.totalBalance - req.amount })
              db.accounts }, 201⟩ := by
      unfold createExpense
      rw [if_neg hcond, if_neg hle, if_pos hacc]
    rw [hcreate]
    have hacc1 : findAccount
        (updAccount u
          (fun a => { a with totalExpense := a.totalExpense + req.amount,
                             totalBalance := a.totalBalance - req.amount })
          db.accounts) u =
        some { acc with
               totalExpense := acc.totalExpense + req.amount,
               totalBalance := acc.totalBalance - req.amount } := by
      rw [findAccount_upd, hacc0]
      rfl
    have hfind : findExpense
        (db.expenses ++
          [{ id := newId, userId := u, title := req.title, category := req.category,
             amount := req.amount, date := req.date.getD now,
             paymentMethod := req.paymentMethod, description := req.description }]) newId u =
        some { id := newId, userId := u, title := req.title, category := req.category,
               amount := req.amount, date := req.date.getD now,
               paymentMethod := req.paymentMethod, description := req.description } := by
      unfold findExpense
      rw [List.find?_append]
      have h1 : db.expenses.find? (fun e => decide (e.id = newId ∧ e.userId = u)) = none := by
        rw [List.find?_eq_none]
        intro x hx
        simp only [decide_eq_true_eq, not_and]
        intro hxid
        exact absurd hxid (hfresh x hx)
      rw [h1]
      simp
    refine ⟨rfl, ?_, ?_, ?_, ?_, ?_⟩
    · simp [ledger, hacc1, hacc0]
    · simp [ledger, hacc1, hacc0]
    · unfold deleteExpense
      rw [hfind]
    · unfold deleteExpense
      rw [hfind]
      simp only [hacc1, Option.isSome_some, if_true]
      simp [ledger, findAccount_upd, hacc1, hacc0]
    · unfold deleteExpense
      rw [hfind]
      simp only [hacc1, Option.isSome_some, if_true]
      simp [ledger, findAccount_upd, hacc1, hacc0]
  · intro db u newId now req ht hs ha hfresh
    have hcond : ¬(req.title = "" ∨ req.area = "" ∨ req.amount = 0) := by
      push_neg
      exact ⟨ht, hs, ne_of_gt ha⟩
    have hle : ¬req.amount ≤ 0 := not_le.mpr ha
    have hcreate : createInvestment u newId now req db =
        ⟨{ db with
            investments := db.investments ++
              [{ id := newId, userId := u, title := req.title, area := req.area,
                 amount := req.amount,
                 quantity := truthyNum req.quantity,
                 purchasePrice := truthyNum req.purchasePrice,
                 currentValue := some ((truthyNum req.currentValue).getD req.amount),
                 date := req.date.getD now, description := none }],
            accounts := updAccount u
              (fun a => { a with totalInvested := a.totalInvested + req.amount,
                                 totalBalance := a.totalBalance - req.amount })
              (ensureAccount u db.accounts) }, 201⟩ := by
      unfold createInvestment
      rw [if_neg hcond, if_neg hle]
    rw [hcreate]
    have hacc1 : findAccount
        (updAccount u
          (fun a => { a with totalInvested := a.totalInvested + req.amount,
                             totalBalance := a.totalBalance - req.amount })
          (ensureAccount u db.accounts)) u =
        some { (ledger u db) with
               totalInvested := (ledger u db).totalInvested + req.amount,
               totalBalance := (ledger u db).totalBalance - req.amount } := by
      rw [findAccount_upd, findAccount_ensure]
      rfl
    have hfind : findInvestment
        (db.investments ++
          [{ id := newId, userId := u, title := req.title, area := req.area,
             amount := req.amount,
             quantity := truthyNum req.quantity,
             purchasePrice := truthyNum req.purchasePrice,
             currentValue := some ((truthyNum req.currentValue).getD req.amount),
             date := req.date.getD now, description := none }]) newId u =
        some { id := newId, userId := u, title := req.title, area := req.area,
               amount := req.amount,
               quantity := truthyNum req.quantity,
               purchasePrice := truthyNum req.purchasePrice,
               currentValue := some ((truthyNum req.currentValue).getD req.amount),
               date := req.date.getD now, description := none } := by
      unfold findInvestment
      rw [List.find?_append]
      have h1 : db.investments.find?
          (fun v => decide (v.id = newId ∧ v.userId = u)) = none := by
        rw [List.find?_eq_none]
        intro x hx
        simp only [decide_eq_true_eq, not_and]
        intro hxid
        exact absurd hxid (hfresh x hx)
      rw [h1]
      simp
    refine ⟨rfl, ?_, ?_, ?_, ?_, ?_⟩
    · simp [ledger, hacc1]
    · simp [ledger, hacc1]
    · unfold deleteInvestment
      rw [hfind]
    · unfold deleteInvestment
      rw [hfind]
      simp only [hacc1, Option.isSome_some, if_true]
      simp [ledger, findAccount_upd, hacc1]
    · unfold deleteInvestment
      rw [hfind]
      simp only [hacc1, Option.isSome_some, if_true]
      simp [ledger, findAccount_upd, hacc1]

/-- Witness for C2 at a concrete input: a 5-unit income, expense and investment
each round-trip on a fresh one-user database. -/
theorem ledger_roundtrip_on_create_delete_witness :
    ((createIncome "u" "i1" 0 ⟨"Pay", "Job", 5, none, none, none⟩
        ⟨[], [], [], [("u", Account.zero)]⟩).status = 201 ∧
      (ledger "u" (createIncome "u" "i1" 0 ⟨"Pay", "Job", 5, none, none, none⟩
        ⟨[], [], [], [("u", Account.zero)]⟩).db).totalIncome
        = (ledger "u" (⟨[], [], [], [("u", Account.zero)]⟩ : DB)).totalIncome + 5) ∧
    (createExpense "u" "e1" 0 ⟨"Food", "Groceries", 5, none, none, none⟩
        ⟨[], [], [], [("u", Account.zero)]⟩).status = 201 ∧
    (createInvestment "u" "v1" 0 ⟨"Fund", "Stocks", 5, none, none, none, none⟩
        ⟨[], [], [], [("u", Account.zero)]⟩).status = 201 := by
  refine ⟨⟨?_, ?_⟩, ?_, ?_⟩
  · exact (ledger_roundtrip_on_create_delete.1 ⟨[], [], [], [("u", Account.zero)]⟩
      "u" "i1" 0 ⟨"Pay", "Job", 5, none, none, none⟩
      (by simp) (by simp) (by norm_num) (by simp)).1
  · exact (ledger_roundtrip_on_create_delete.1 ⟨[], [], [], [("u", Account.zero)]⟩
      "u" "i1" 0 ⟨"Pay", "Job", 5, none, none, none⟩
      (by simp) (by simp) (by norm_num) (by simp)).2.1
  · exact (ledger_roundtrip_on_create_delete.2.1 ⟨[], [], [], [("u", Account.zero)]⟩
      "u" "e1" 0 ⟨"Food", "Groceries", 5, none, none, none⟩
      (by simp) (by simp) (by norm_num) (by simp)
      (by simp [findAccount])).1
  · exact (ledger_roundtrip_on_create_delete.2.2 ⟨[], [], [], [("u", Account.zero)]⟩
      "u" "v1" 0 ⟨"Fund", "Stocks", 5, none, none, none, none⟩
      (by simp) (by simp) (by norm_num) (by simp)).1

/-- C10: a contribution that leaves `currentAmount` still strictly below
`targetAmount` sets the goal's status to "active" — even when the goal was
previously "completed" (reachable, since withdrawals never reset the status). -/
theorem contribute_below_target_reactivates :
    ∀ (goals : List SavingsGoal) (u id : String) (a : ℚ) (g : SavingsGoal),
      findGoal goals id u = some g → 0 < a →
      g.currentAmount + a < g.targetAmount →
      (contributeGoal u id (some a) goals).2 = 200 ∧
      ∀ x ∈ (contributeGoal u id (some a) goals).1, x.id = id → x.status = "active" := by
  intro goals u id a g hg ha hlt
  have hna : ¬a ≤ 0 := not_le.mpr ha
  have hnc : ¬g.targetAmount ≤ g.currentAmount + a := not_le.mpr hlt
  constructor
  · simp [contributeGoal, hg, hna]
  · intro x hx hid
    simp only [contributeGoal, hg, hna, if_false, List.mem_map] at hx
    obtain ⟨y, hy, rfl⟩ := hx
    by_cases h : y.id = id
    · simp [h, hnc]
    · simp only [if_neg h] at hid
      exact absurd hid h

/-- Witness for C10 at a concrete input: a goal that was "completed" with
currentAmount 0 (after a big withdrawal) is demoted back to "active" by a
small contribution. -/
theorem contribute_below_target_reactivates_witness :
    (contributeGoal "u2" "g2" (some 30) [⟨"g2", "u2", "Bike", 100, 0, "completed", "low"⟩]).2
      = 200 ∧
    ∀ x ∈ (contributeGoal "u2" "g2" (some 30)
      [⟨"g2", "u2", "Bike", 100, 0, "completed", "low"⟩]).1,
      x.id = "g2" → x.status = "active" :=
  contribute_below_target_reactivates _ _ _ _
    ⟨"g2", "u2", "Bike", 100, 0, "completed", "low"⟩
    (by simp [findGoal]) (by norm_num) (by norm_num)

/-- C9: income, expense and investment updates never touch the account ledger
(`accounts` is unchanged for every caller, id and patch — ledger deltas happen
only on create and delete); consequently an amount-changing update makes the
ledger drift from the sum of its source rows, as the final concrete conjunct
shows (ledger still 100, rows now summing to 50). -/
theorem record_updates_leave_ledger_untouched :
    (∀ (db : DB) (u id : String) (p : IncomePatch),
        (updateIncome u id p db).db.accounts = db.accounts) ∧
    (∀ (db : DB) (u id : String) (p : ExpensePatch),
        (updateExpense u id p db).db.accounts = db.accounts) ∧
    (∀ (db : DB) (u id : String) (p : InvestmentPatch),
        (updateInvestment u id p db).db.accounts = db.accounts) ∧
    (let db0 : DB := ⟨[], [], [], [("u1", Account.zero)]⟩
     let r1 := createIncome "u1" "i1" 0 ⟨"Salary", "Job", 100, none, none, none⟩ db0
     let r2 := updateIncome "u1" "i1" ⟨none, none, some 50, none, none, none⟩ r1.db
     r2.status = 200 ∧ (ledger "u1" r2.db).totalIncome = 100 ∧
     ((userIncomes "u1" r2.db).map (·.amount)).sum = 50) := by
  refine ⟨?_, ?_, ?_, ?_⟩
  · intro db u id p
    unfold updateIncome
    cases h : findIncome db.incomes id u with
    | none => simp [h]
    | some e => cases hb : badAmount p.amount <;> simp [h, hb]
  · intro db u id p
    unfold updateExpense
    cases h : findExpense db.expenses id u with
    | none => simp [h]
    | some e => cases hb : badAmount p.amount <;> simp [h, hb]
  · intro db u id p
    unfold updateInvestment
    cases h : findInvestment db.investments id u with
    | none => simp [h]
    | some e => simp [h]
  · simp only [createIncome, updateIncome, findIncome, ledger, findAccount, updAccount,
      ensureAccount, userIncomes, Account.zero, badAmount, numPatch, strPatch, optStrPatch]
    simp
    norm_num

/-- `Math.ceil(total/limit)` over the rationals agrees with the natural-number
ceiling-division formula `(total + limit - 1) / limit` for a positive limit. -/
theorem pages_formula (m L : ℕ) (hL : 0 < L) :
    (⌈(m : ℚ) / (L : ℚ)⌉).toNat = (m + L - 1) / L := by
  obtain ⟨q, hq⟩ : ∃ q, (m + L - 1) / L = q := ⟨_, rfl⟩
  have hdm := Nat.div_add_mod (m + L - 1) L
  have hmod := Nat.mod_lt (m + L - 1) hL
  rw [hq] at hdm
  have hm1 : m ≤ L * q := by omega
  have hm3 : L * q < m + L := by omega
  have hL0 : (0 : ℚ) < (L : ℚ) := by exact_mod_cast hL
  have hm1' : (m : ℚ) ≤ (L : ℚ) * (q : ℚ) := by exact_mod_cast hm1
  have hm3' : (L : ℚ) * (q : ℚ) < (m : ℚ) + (L : ℚ) := by exact_mod_cast hm3
  have hceil : ⌈(m : ℚ) / (L : ℚ)⌉ = (q : ℤ) := by
    rw [Int.ceil_eq_iff]
    constructor
    · rw [lt_div_iff₀ hL0]
      push_cast
      nlinarith
    · rw [div_le_iff₀ hL0]
      push_cast
      linarith
  rw [hq, hceil, Int.toNat_natCast]

/-- C8: every list endpoint reports `pages = ceil(total/limit)` (stated via the
natural-number ceiling formula), always returns the full count as `total`, and
returns an empty items list whenever the effective page exceeds `pages`;
absent page/limit query values default to page=1, limit=10. -/
theorem pagination_law {α : Type} :
    (∀ (rows : List α) (pageQ limitQ : Option Nat),
      (paginate rows pageQ limitQ).total = rows.length ∧
      (paginate rows pageQ limitQ).pages =
        ((paginate rows pageQ limitQ).total + (paginate rows pageQ limitQ).limit - 1) /
          (paginate rows pageQ limitQ).limit ∧
      ((paginate rows pageQ limitQ).pages < (paginate rows pageQ limitQ).page →
        (paginate rows pageQ limitQ).items = [])) ∧
    (∀ rows : List α,
      (paginate rows none none).page = 1 ∧ (paginate rows none none).limit = 10) := by
  constructor
  · intro rows pageQ limitQ
    have hL : 0 < queryOr limitQ 10 := by
      unfold queryOr
      cases limitQ with
      | none => norm_num
      | some n => by_cases h : n = 0 <;> simp [h] <;> omega
    refine ⟨rfl, ?_, ?_⟩
    · exact pages_formula rows.length (queryOr limitQ 10) hL
    · intro hpage
      have hfor := pages_formula rows.length (queryOr limitQ 10) hL
      simp only [paginate] at hpage hfor ⊢
      set L := queryOr limitQ 10 with hLdef
      set pg := queryOr pageQ 1 with hpgdef
      have hdm := Nat.div_add_mod (rows.length + L - 1) L
      have hmod := Nat.mod_lt (rows.length + L - 1) hL
      have hlen : rows.length ≤ ((rows.length + L - 1) / L) * L := by
        rw [Nat.mul_comm]; omega
      have hp1 : (rows.length + L - 1) / L + 1 ≤ pg := by omega
      have hskip : rows.length ≤ (pg - 1) * L := by
        calc rows.length ≤ ((rows.length + L - 1) / L) * L := hlen
        _ ≤ (pg - 1) * L := Nat.mul_le_mul_right L (by omega)
      rw [List.drop_eq_nil_of_le hskip, List.take_nil]
  · intro rows
    exact ⟨rfl, rfl⟩

/-- Witness for C8 at a concrete input: 3 rows with limit 2 give pages = 2, and
requesting page 5 returns no items; defaults are page 1, limit 10. -/
theorem pagination_law_witness :
    (paginate ([1, 2, 3] : List ℕ) (some 5) (some 2)).items = [] ∧
    (paginate ([1, 2, 3] : List ℕ) none none).page = 1 ∧
    (paginate ([1, 2, 3] : List ℕ) none none).limit = 10 :=
  ⟨(pagination_law.1 [1, 2, 3] (some 5) (some 2)).2.2
      (by
        have h32 : ⌈(3 : ℚ) / 2⌉ = 2 := by
          rw [Int.ceil_eq_iff] <;> norm_num
        norm_num [paginate, queryOr, h32]),
   (pagination_law.2 [1, 2, 3]).1, (pagination_law.2 [1, 2, 3]).2⟩

/-- `updateMany({ where: { userId, isDefault: true } })` leaves the user with no
default card at all. -/
theorem countDefaults_unset (u : String) (cards : List Card) :
    countDefaults u (unsetDefaults u cards) = 0 := by
  unfold countDefaults unsetDefaults
  rw [List.countP_map]
  apply List.countP_eq_zero.mpr
  intro c hc
  by_cases h1 : c.userId = u <;> by_cases h2 : c.isDefault <;>
    simp [Function.comp, h1, h2]

/-- Unsetting defaults does not change which ids are present. -/
theorem unsetDefaults_ids (u : String) (cards : List Card) :
    (unsetDefaults u cards).map (·.id) = cards.map (·.id) := by
  unfold unsetDefaults
  rw [List.map_map]
  apply List.map_congr_left
  intro c _
  by_cases h : c.userId = u ∧ c.isDefault <;> simp [h]

/-- C4: a card create or update that sets `isDefault = true` leaves the caller
with exactly one default card, provided at most one card was default before
(the create part needs the request to pass validation; the update part needs
the target card to exist for that user and card ids to be unique). -/
theorem single_default_card_invariant :
    (∀ (cards : List Card) (u newId : String) (req : CardReq),
      req.isDefault = some true →
      jsOr req.type (jsOr req.cardType "") ≠ "" →
      jsOr req.last4 "" ≠ "" →
      jsOr req.cardholderName "" ≠ "" →
      badAmount req.limit = false →
      countDefaults u cards ≤ 1 →
      (createCard u newId req cards).2 = 201 ∧
      countDefaults u (createCard u newId req cards).1 = 1) ∧
    (∀ (cards : List Card) (u id : String) (p : CardPatch) (card : Card),
      p.isDefault = some true →
      findCard cards id u = some card →
      (cards.map (·.id)).Nodup →
      countDefaults u cards ≤ 1 →
      (updateCard u id p cards).2 = 200 ∧
      countDefaults u (updateCard u id p cards).1 = 1) := by
  constructor
  · intro cards u newId req hdef htype hlast hname hlimit _hinv
    have hcond : ¬(jsOr req.type (jsOr req.cardType "") = "" ∨ jsOr req.last4 "" = "" ∨
        jsOr req.cardholderName "" = "") := by
      push_neg
      exact ⟨htype, hlast, hname⟩
    constructor
    · simp [createCard, if_neg hcond, hlimit]
    unfold createCard
    rw [if_neg hcond, hlimit]
    simp only [Bool.false_eq_true, if_false, if_pos hdef]
    unfold countDefaults
    rw [List.countP_append]
    have h0 : countDefaults u (unsetDefaults u cards) = 0 := countDefaults_unset u cards
    unfold countDefaults at h0
    rw [h0, hdef]
    simp
  · intro cards u id p card hdef hfind hnd hinv
    obtain ⟨hcid, hcu⟩ : card.id = id ∧ card.userId = u := by
      have := List.find?_some (show cards.find?
        (fun c => decide (c.id = id ∧ c.userId = u)) = some card from hfind)
      simpa using this
    have hmem : card ∈ cards := List.mem_of_find?_eq_some (show cards.find?
      (fun c => decide (c.id = id ∧ c.userId = u)) = some card from hfind)
    unfold updateCard
    rw [hfind]
    dsimp only
    by_cases hcd : card.isDefault
    · have hcond : ¬(p.isDefault = some true ∧ ¬card.isDefault = true) := by simp [hcd]
      rw [if_neg hcond]
      refine ⟨rfl, ?_⟩
      unfold countDefaults
      rw [List.countP_map]
      have hpoint : ∀ c ∈ cards,
          ((fun c => decide (c.userId = u) && c.isDefault) ∘ fun c =>
            if c.id = id then
              { c with name := strPatch p.cardholderName c.name,
                       limit := optNumPatch p.limit c.limit,
                       isDefault := p.isDefault.getD c.isDefault }
            else c) c = true ↔
          (fun c => decide (c.userId = u) && c.isDefault) c = true := by
        intro c hc
        by_cases h : c.id = id
        · have hce : c = card := List.inj_on_of_nodup_map hnd hc hmem (by rw [h, hcid])
          subst hce
          simp [Function.comp, h, hdef, hcd]
        · simp [Function.comp, h]
      rw [List.countP_congr hpoint]
      have hpos : 0 < cards.countP (fun c => decide (c.userId = u) && c.isDefault) :=
        List.countP_pos.mpr ⟨card, hmem, by simp [hcu, hcd]⟩
      unfold countDefaults at hinv
      omega
    · rw [if_pos ⟨hdef, hcd⟩]
      refine ⟨rfl, ?_⟩
      unfold countDefaults
      rw [List.countP_map]
      have h0 := countDefaults_unset u cards
      unfold countDefaults at h0
      have hzero : ∀ c ∈ unsetDefaults u cards, c.userId = u → c.isDefault = false := by
        intro c hc hcu'
        have := List.countP_eq_zero.mp h0 c hc
        simpa [hcu'] using this
      have hmem' : card ∈ unsetDefaults u cards := by
        have heq : (fun c =>
            if c.userId = u ∧ c.isDefault then { c with isDefault := false } else c) card
            = card := by
          simp [hcd]
        rw [← heq]
        exact List.mem_map_of_mem _ hmem
      have hnd' : ((unsetDefaults u cards).map (·.id)).Nodup := by
        rw [unsetDefaults_ids]
        exact hnd
      have hpoint : ∀ c ∈ unsetDefaults u cards,
          ((fun c => decide (c.userId = u) && c.isDefault) ∘ fun c =>
            if c.id = id then
              { c with name := strPatch p.cardholderName c.name,
                       limit := optNumPatch p.limit c.limit,
                       isDefault := p.isDefault.getD c.isDefault }
            else c) c = true ↔
          (fun c => decide (c.id = id)) c = true := by
        intro c hc
        by_cases h : c.id = id
        · have hce : c = card := List.inj_on_of_nodup_map hnd' hc hmem' (by rw [h, hcid])
          subst hce
          simp [Function.comp, h, hdef, hcu]
        · by_cases h2 : c.userId = u
          · have := hzero c hc h2
            simp [Function.comp, h, h2, this]
          · simp [Function.comp, h, h2]
      rw [List.countP_congr hpoint]
      have hbeq : ∀ c ∈ unsetDefaults u cards,
          (fun c : Card => decide (c.id = id)) c = true ↔
          ((fun x => x == id) ∘ (fun c : Card => c.id)) c = true := by
        intro c _
        simp [Function.comp, beq_iff_eq]
      rw [List.countP_congr hbeq, ← List.countP_map, ← List.count_eq_countP]
      have hidmem : id ∈ (unsetDefaults u cards).map (fun c : Card => c.id) := by
        rw [← hcid]
        exact List.mem_map_of_mem _ hmem'
      exact List.count_eq_one_of_mem hnd' hidmem

/-- Witness for C4 at a concrete input: creating a second default card unsets
the first, and updating a non-default card to default unsets the other. -/
theorem single_default_card_invariant_witness :
    (createCard "u" "c2"
      ⟨some "visa", none, some "1234", some "Ann", none, none, none, some true, none, none⟩
      [⟨"c1", "u", "mc", "Bank", "9999", "Ann", none, none, none, true⟩]).2 = 201 ∧
    countDefaults "u" (createCard "u" "c2"
      ⟨some "visa", none, some "1234", some "Ann", none, none, none, some true, none, none⟩
      [⟨"c1", "u", "mc", "Bank", "9999", "Ann", none, none, none, true⟩]).1 = 1 ∧
    countDefaults "u" (updateCard "u" "c1" ⟨none, none, some true⟩
      [⟨"c1", "u", "mc", "Bank", "9999", "Ann", none, none, none, false⟩,
       ⟨"c2", "u", "visa", "Bank", "1234", "Ann", none, none, none, true⟩]).1 = 1 := by
  refine ⟨?_, ?_, ?_⟩
  · exact (single_default_card_invariant.1
      [⟨"c1", "u", "mc", "Bank", "9999", "Ann", none, none, none, true⟩] "u" "c2"
      ⟨some "visa", none, some "1234", some "Ann", none, none, none, some true, none, none⟩
      rfl (by simp [jsOr]) (by simp [jsOr]) (by simp [jsOr]) rfl (by decide)).1
  · exact (single_default_card_invariant.1
      [⟨"c1", "u", "mc", "Bank", "9999", "Ann", none, none, none, true⟩] "u" "c2"
      ⟨some "visa", none, some "1234", some "Ann", none, none, none, some true, none, none⟩
      rfl (by simp [jsOr]) (by simp [jsOr]) (by simp [jsOr]) rfl (by decide)).2
  · exact (single_default_card_invariant.2
      [⟨"c1", "u", "mc", "Bank", "9999", "Ann", none, none, none, false⟩,
       ⟨"c2", "u", "visa", "Bank", "1234", "Ann", none, none, none, true⟩] "u" "c1"
      ⟨none, none, some true⟩
      ⟨"c1", "u", "mc", "Bank", "9999", "Ann", none, none, none, false⟩
      rfl (by decide) (by decide) (by decide)).2

/-- Looking up an expense by (id, owner) after an id-targeted rewrite that
preserves `id` and `userId` finds the rewritten row. -/
theorem findExpense_map_update (l : List Expense) (id u : String) (f : Expense → Expense)
    (hid : ∀ e, (f e).id = e.id) (hu : ∀ e, (f e).userId = e.userId) :
    findExpense (l.map (fun e => if e.id = id then f e else e)) id u =
      (findExpense l id u).map (fun e => if e.id = id then f e else e) := by
  induction l with
  | nil => rfl
  | cons e t ih =>
    have hgid : (if e.id = id then f e else e).id = e.id := by
      by_cases h : e.id = id <;> simp [h, hid]
    have hgu : (if e.id = id then f e else e).userId = e.userId := by
      by_cases h : e.id = id <;> simp [h, hu]
    by_cases hpe : e.id = id ∧ e.userId = u
    · unfold findExpense
      rw [List.map_cons,
        List.find?_cons_of_pos _ (by
          simp only [hgid, hgu, decide_eq_true_eq]
          exact hpe),
        List.find?_cons_of_pos _ (by simp [hpe])]
      rfl
    · unfold findExpense
      rw [List.map_cons,
        List.find?_cons_of_neg _ (by
          simp only [hgid, hgu, decide_eq_true_eq]
          exact hpe),
        List.find?_cons_of_neg _ (by simpa using hpe)]
      exact ih

/-- Income analogue of `findExpense_map_update`. -/
theorem findIncome_map_update (l : List Income) (id u : String) (f : Income → Income)
    (hid : ∀ i, (f i).id = i.id) (hu : ∀ i, (f i).userId = i.userId) :
    findIncome (l.map (fun i => if i.id = id then f i else i)) id u =
      (findIncome l id u).map (fun i => if i.id = id then f i else i) := by
  induction l with
  | nil => rfl
  | cons e t ih =>
    have hgid : (if e.id = id then f e else e).id = e.id := by
      by_cases h : e.id = id <;> simp [h, hid]
    have hgu : (if e.id = id then f e else e).userId = e.userId := by
      by_cases h : e.id = id <;> simp [h, hu]
    by_cases hpe : e.id = id ∧ e.userId = u
    · unfold findIncome
      rw [List.map_cons,
        List.find?_cons_of_pos _ (by
          simp only [hgid, hgu, decide_eq_true_eq]
          exact hpe),
        List.find?_cons_of_pos _ (by simp [hpe])]
      rfl
    · unfold findIncome
      rw [List.map_cons,
        List.find?_cons_of_neg _ (by
          simp only [hgid, hgu, decide_eq_true_eq]
          exact hpe),
        List.find?_cons_of_neg _ (by simpa using hpe)]
      exact ih

/-- C6 as the code implements it (the amended claim): an expense or income
update applies exactly the patch keys that are present *with truthy values*
(non-empty strings, non-zero numbers) to the stored row — keys that are absent,
or present with falsy values, leave the field unchanged — and every other row
survives untouched.  The hypothesis excludes negative amount patches, which the
handler rejects with 400. -/
theorem update_patch_field_semantics :
    (∀ (db : DB) (u id : String) (p : ExpensePatch) (e : Expense),
      findExpense db.expenses id u = some e →
      (∀ a, p.amount = some a → 0 ≤ a) →
      (updateExpense u id p db).status = 200 ∧
      findExpense (updateExpense u id p db).db.expenses id u = some
        { e with
          title := strPatch p.title e.title,
          category := strPatch p.category e.category,
          amount := numPatch p.amount e.amount,
          date := p.date.getD e.date,
          paymentMethod := optStrPatch p.paymentMethod e.paymentMethod,
          description := optStrPatch p.description e.description } ∧
      ∀ x ∈ db.expenses, x.id ≠ id → x ∈ (updateExpense u id p db).db.expenses) ∧
    (∀ (db : DB) (u id : String) (p : IncomePatch) (i : Income),
      findIncome db.incomes id u = some i →
      (∀ a, p.amount = some a → 0 ≤ a) →
      (updateIncome u id p db).status = 200 ∧
      findIncome (updateIncome u id p db).db.incomes id u = some
        { i with
          title := strPatch p.title i.title,
          source := strPatch p.source i.source,
          amount := numPatch p.amount i.amount,
          date := p.date.getD i.date,
          frequency := optStrPatch p.frequency i.frequency,
          description := optStrPatch p.description i.description } ∧
      ∀ x ∈ db.incomes, x.id ≠ id → x ∈ (updateIncome u id p db).db.incomes) := by
  constructor
  · intro db u id p e he hamt
    have hbad : badAmount p.amount = false := by
      unfold badAmount
      cases hpa : p.amount with
      | none => rfl
      | some a =>
        have h0 := hamt a hpa
        simp only [decide_eq_false_iff_not, not_and, not_le, Decidable.not_not]
        intro hne
        exact lt_of_le_of_ne h0 (Ne.symm hne)
    have heid : e.id = id := by
      have := List.find?_some (show db.expenses.find?
        (fun x => decide (x.id = id ∧ x.userId = u)) = some e from he)
      simp only [decide_eq_true_eq] at this
      exact this.1
    unfold updateExpense
    rw [he, hbad]
    simp only [Bool.false_eq_true, if_false]
    refine ⟨by trivial, ?_, ?_⟩
    · have hstep := findExpense_map_update db.expenses id u
        (fun x => { x with
          title := strPatch p.title x.title,
          category := strPatch p.category x.category,
          amount := numPatch p.amount x.amount,
          date := p.date.getD x.date,
          paymentMethod := optStrPatch p.paymentMethod x.paymentMethod,
          description := optStrPatch p.description x.description })
        (fun x => rfl) (fun x => rfl)
      rw [he] at hstep
      rw [hstep]
      simp only [Option.map_some']
      rw [if_pos heid]
    · intro x hx hxid
      have hmm := List.mem_map_of_mem (fun e : Expense => if e.id = id then
          { e with
            title := strPatch p.title e.title,
            category := strPatch p.category e.category,
            amount := numPatch p.amount e.amount,
            date := p.date.getD e.date,
            paymentMethod := optStrPatch p.paymentMethod e.paymentMethod,
            description := optStrPatch p.description e.description }
          else e) hx
      simpa only [if_neg hxid] using hmm
  · intro db u id p i hi hamt
    have hbad : badAmount p.amount = false := by
      unfold badAmount
      cases hpa : p.amount with
      | none => rfl
      | some a =>
        have h0 := hamt a hpa
        simp only [decide_eq_false_iff_not, not_and, not_le, Decidable.not_not]
        intro hne
        exact lt_of_le_of_ne h0 (Ne.symm hne)
    have heid : i.id = id := by
      have := List.find?_some (show db.incomes.find?
        (fun x => decide (x.id = id ∧ x.userId = u)) = some i from hi)
      simp only [decide_eq_true_eq] at this
      exact this.1
    unfold updateIncome
    rw [hi, hbad]
    simp only [Bool.false_eq_true, if_false]
    refine ⟨by trivial, ?_, ?_⟩
    · have hstep := findIncome_map_update db.incomes id u
        (fun x => { x with
          title := strPatch p.title x.title,
          source := strPatch p.source x.source,
          amount := numPatch p.amount x.amount,
          date := p.date.getD x.date,
          frequency := optStrPatch p.frequency x.frequency,
          description := optStrPatch p.description x.description })
        (fun x => rfl) (fun x => rfl)
      rw [hi] at hstep
      rw [hstep]
      simp only [Option.map_some']
      rw [if_pos heid]
    · intro x hx hxid
      have hmm := List.mem_map_of_mem (fun i : Income => if i.id = id then
          { i with
            title := strPatch p.title i.title,
            source := strPatch p.source i.source,
            amount := numPatch p.amount i.amount,
            date := p.date.getD i.date,
            frequency := optStrPatch p.frequency i.frequency,
            description := optStrPatch p.description i.description }
          else i) hx
      simpa only [if_neg hxid] using hmm

/-- Witness for C6 at a concrete input: patching only the amount (to 25) of an
expense changes exactly that field and returns 200. -/
theorem update_patch_field_semantics_witness :
    (updateExpense "u" "e1" ⟨none, none, some 25, none, none, none⟩
      ⟨[], [⟨"e1", "u", "Lunch", "Food", 10, 0, none, none⟩], [], []⟩).status = 200 ∧
    findExpense (updateExpense "u" "e1" ⟨none, none, some 25, none, none, none⟩
      ⟨[], [⟨"e1", "u", "Lunch", "Food", 10, 0, none, none⟩], [], []⟩).db.expenses "e1" "u"
      = some ⟨"e1", "u", "Lunch", "Food", 25, 0, none, none⟩ := by
  have h := update_patch_field_semantics.1
    ⟨[], [⟨"e1", "u", "Lunch", "Food", 10, 0, none, none⟩], [], []⟩ "u" "e1"
    ⟨none, none, some 25, none, none, none⟩ ⟨"e1", "u", "Lunch", "Food", 10, 0, none, none⟩
    (by simp [findExpense]) (by intro a ha; injection ha with ha; rw [← ha]; norm_num)
  exact ⟨h.1, by simpa [strPatch, numPatch, optStrPatch] using h.2.1⟩

/-- C6 counterexample to the claim as stated: the patch key `title` is present
(with the empty string) on an update of an existing expense, yet the stored
title is left unchanged ("Lunch", not "") and the handler still answers 200 —
present keys with falsy values are *not* applied. -/
theorem update_patch_counterexample :
    (updateExpense "u" "e1" ⟨some "", none, none, none, none, none⟩
      ⟨[], [⟨"e1", "u", "Lunch", "Food", 10, 0, none, none⟩], [], []⟩).status = 200 ∧
    findExpense (updateExpense "u" "e1" ⟨some "", none, none, none, none, none⟩
      ⟨[], [⟨"e1", "u", "Lunch", "Food", 10, 0, none, none⟩], [], []⟩).db.expenses "e1" "u"
      = some ⟨"e1", "u", "Lunch", "Food", 10, 0, none, none⟩ ∧
    ("Lunch" : String) ≠ "" := by
  refine ⟨?_, ?_, by simp⟩
  · simp [updateExpense, findExpense, badAmount]
  · simp [updateExpense, findExpense, badAmount, strPatch, numPatch, optStrPatch]

/-- A timestamp lies in the `[midnight, 23:59:59.999]` window of day `d` and
passes the trailing `now - 7 days` prefilter exactly when its calendar day is
`d`, for any `d` among the 7 trailing days. -/
theorem bucket_window_iff (t now d : Int) (h1 : Int.fdiv now 86400000 - 6 ≤ d)
    (h2 : d ≤ Int.fdiv now 86400000) :
    ((d * 86400000 ≤ t ∧ t ≤ d * 86400000 + (86400000 - 1)) ∧ now - 7 * 86400000 ≤ t)
      ↔ Int.fdiv t 86400000 = d := by
  have e1 : Int.fdiv now 86400000 = now / 86400000 := Int.fdiv_eq_ediv _ (by norm_num)
  have e2 : Int.fdiv t 86400000 = t / 86400000 := Int.fdiv_eq_ediv _ (by norm_num)
  rw [e1] at h1 h2
  rw [e2]
  omega

/-- The weekly bucket of day `d` (applied after the 7-day prefilter) selects
exactly the user's income rows of calendar day `d`. -/
theorem weekly_bucket_income (l : List Income) (now d : Int)
    (h1 : dayIndex now - 6 ≤ d) (h2 : d ≤ dayIndex now) :
    (l.filter (fun i => decide (now - 7 * msPerDay ≤ i.date))).filter
      (fun t => decide (d * msPerDay ≤ t.date ∧ t.date ≤ d * msPerDay + (msPerDay - 1)))
      = l.filter (fun i => decide (dayIndex i.date = d)) := by
  rw [List.filter_filter]
  apply List.filter_congr
  intro x _
  rw [← Bool.decide_and, decide_eq_decide]
  unfold dayIndex msPerDay at h1 h2 ⊢
  exact bucket_window_iff x.date now d h1 h2

/-- Expense analogue of `weekly_bucket_income`. -/
theorem weekly_bucket_expense (l : List Expense) (now d : Int)
    (h1 : dayIndex now - 6 ≤ d) (h2 : d ≤ dayIndex now) :
    (l.filter (fun e => decide (now - 7 * msPerDay ≤ e.date))).filter
      (fun t => decide (d * msPerDay ≤ t.date ∧ t.date ≤ d * msPerDay + (msPerDay - 1)))
      = l.filter (fun e => decide (dayIndex e.date = d)) := by
  rw [List.filter_filter]
  apply List.filter_congr
  intro x _
  rw [← Bool.decide_and, decide_eq_decide]
  unfold dayIndex msPerDay at h1 h2 ⊢
  exact bucket_window_iff x.date now d h1 h2

/-- C7: on every dashboard call the weekly series has exactly 7 entries, one per
calendar day for the 7 trailing days in chronological order ending today (entry
`i` covers day `dayIndex now - 6 + i` and carries that day's weekday
abbreviation), each entry's amount equals max(0, that day's full income sum
minus that day's full expense sum), and every amount is ≥ 0. -/
theorem weekly_series_shape (u : String) (now : Int) (db : DB) :
    ((getDashboard u now db).weeklyStats).length = 7 ∧
    (getDashboard u now db).weeklyStats = (List.range 7).map (fun i =>
      { day := weekdayName (dayIndex now - 6 + (i : Int)),
        amount := max 0 (dayIncomeSum (userIncomes u db) (dayIndex now - 6 + (i : Int)) -
          dayExpenseSum (userExpenses u db) (dayIndex now - 6 + (i : Int))) }) ∧
    ∀ s ∈ (getDashboard u now db).weeklyStats, 0 ≤ s.amount := by
  have hws : (getDashboard u now db).weeklyStats
      = weeklyStats now (userIncomes u db) (userExpenses u db) := rfl
  have hmain : weeklyStats now (userIncomes u db) (userExpenses u db)
      = (List.range 7).map (fun i =>
        { day := weekdayName (dayIndex now - 6 + (i : Int)),
          amount := max 0 (dayIncomeSum (userIncomes u db) (dayIndex now - 6 + (i : Int)) -
            dayExpenseSum (userExpenses u db) (dayIndex now - 6 + (i : Int))) }) := by
    unfold weeklyStats
    apply List.map_congr_left
    intro i hi
    have hi7 : i ≤ 6 := by
      have := List.mem_range.mp hi
      omega
    have hd : dayIndex now - (6 - (i : Int)) = dayIndex now - 6 + (i : Int) := by ring
    dsimp only
    rw [hd,
      weekly_bucket_income (userIncomes u db) now _ (by omega) (by
        have : (i : Int) ≤ 6 := by exact_mod_cast hi7
        omega),
      weekly_bucket_expense (userExpenses u db) now _ (by omega) (by
        have : (i : Int) ≤ 6 := by exact_mod_cast hi7
        omega)]
    rfl
  refine ⟨?_, ?_, ?_⟩
  · rw [hws, hmain]
    simp
  · rw [hws]
    exact hmain
  · intro s hs
    rw [hws, hmain] at hs
    simp only [List.mem_map] at hs
    obtain ⟨i, _, rfl⟩ := hs
    exact le_max_left _ _

/-- Witness for C7 at a concrete input: the dashboard of an empty database at
`now = 0` has a 7-entry weekly series whose oldest entry (day −6, a Friday) has
a non-negative amount. -/
theorem weekly_series_shape_witness :
    ((getDashboard "u" 0 ⟨[], [], [], []⟩).weeklyStats).length = 7 ∧
    (0 : ℚ) ≤ (⟨"Fri", 0⟩ : DayStat).amount := by
  have hr : List.range 7 = [0, 1, 2, 3, 4, 5, 6] := rfl
  have hlist : (getDashboard "u" 0 ⟨[], [], [], []⟩).weeklyStats =
      [⟨"Fri", 0⟩, ⟨"Sat", 0⟩, ⟨"Sun", 0⟩, ⟨"Mon", 0⟩, ⟨"Tue", 0⟩, ⟨"Wed", 0⟩,
       ⟨"Thu", 0⟩] := by
    rw [(weekly_series_shape "u" 0 ⟨[], [], [], []⟩).2.1, hr]
    norm_num [weekdayName, dayIndex, msPerDay, dayIncomeSum, dayExpenseSum,
      userIncomes, userExpenses, Int.zero_fdiv]
    decide
  constructor
  · exact (weekly_series_shape "u" 0 ⟨[], [], [], []⟩).1
  · apply (weekly_series_shape "u" 0 ⟨[], [], [], []⟩).2.2
    rw [hlist]
    simp

end Buget
